import Mathlib

/-!
Verification of the HAPPYBOMBER escrow program
(`src/solana/programs/escrow/src/lib.rs`).

The program is a Solana/Anchor escrow for a 5-player game.  We embed the
on-chain state (`Game` record plus the vault token balance) and the six
instructions (`create_game`, `join_game`, `start_game`, `end_game`,
`cancel_game`, `refund_player`) as pure functions returning `Except`.

Modelling conventions:
* `u64` balances and amounts are `Nat`; overflow checks are written
  explicitly against `U64MOD = 2^64`.  `stake_amount * 5` in `end_game`
  is embedded with the release-mode wrapping semantics `% 2^64`.
* Pubkeys are `Nat`, with `0` playing the role of `Pubkey::default()`.
* SPL-token `transfer` is modelled by its observable checks: the signing
  authority must own the source account, the source balance must cover
  the amount, and the destination balance must not overflow `u64`.
  The vault is its own authority (PDA signer seeds), so only `join_game`
  carries an ownership check, on the player's source account.
* The Solana runtime commits account mutations only when the instruction
  returns `Ok`; an `Err` reverts everything.  `applyOp` embeds one
  instruction, `runC` embeds the commit-or-revert transaction boundary.
* External token accounts (player/winner/house destinations) are inputs
  supplied per call (`AcctInfo`); the persistent world is the game record
  and its vault balance.
-/

namespace Happybomber

/-- `2^64`, the modulus of `u64` arithmetic. -/
def U64MOD : Nat := 2 ^ 64

/-- Pubkeys are modelled as naturals; `0` stands for `Pubkey::default()`. -/
abbrev Pubkey := Nat

/-- `Pubkey::default()` (the all-zero pubkey). -/
def pubkeyDefault : Pubkey := 0

/-- `GameStatus` from lib.rs: `Waiting | Live | Finished | Cancelled`. -/
inductive GameStatus where
  | Waiting
  | Live
  | Finished
  | Cancelled
deriving DecidableEq

/-- The `Game` account from lib.rs (the persistent game record). -/
structure Game where
  game_id : List Nat
  creator : Pubkey
  stake_amount : Nat
  player_count : Nat
  players : List Pubkey
  status : GameStatus
  seed : List Nat
  winner : Option Pubkey
  created_at : Int
  started_at : Option Int
  bump : Nat
deriving DecidableEq

/-- The persistent on-chain world for one game: the game record and the
balance of its vault token account. -/
structure World where
  game : Game
  vault : Nat
deriving DecidableEq

/-- An external (caller-supplied) SPL token account: its owner and balance. -/
structure AcctInfo where
  owner : Pubkey
  amount : Nat
deriving DecidableEq

/-- Failures of the SPL token program's `transfer`. -/
inductive TokenError where
  | InsufficientFunds
  | Overflow
  | OwnerMismatch
deriving DecidableEq

/-- `EscrowError` from lib.rs. -/
inductive EscrowError where
  | GameNotWaiting
  | GameFull
  | AlreadyJoined
  | NotEnoughPlayers
  | GameNotLive
  | InvalidWinner
  | Unauthorized
  | GameNotCancelled
  | InvalidPlayer
  | WrongPlayer
deriving DecidableEq

/-- All error outcomes of one instruction: an escrow error code, a token
program failure propagated by `?`, or an Anchor account-resolution failure. -/
inductive Err where
  | escrow (e : EscrowError)
  | token (e : TokenError)
  | accountMissing
  | accountExists
  | badInput
deriving DecidableEq

/-- The events emitted by the program (lib.rs `#[event]` structs). -/
inductive Event where
  | GameCreated (game_id : List Nat) (creator : Pubkey) (stake_amount : Nat)
  | PlayerJoined (game_id : List Nat) (player : Pubkey) (player_count : Nat)
  | GameStarted (game_id : List Nat) (seed : List Nat) (started_at : Int)
  | GameEnded (game_id : List Nat) (winner : Pubkey) (winner_payout : Nat) (house_fee : Nat)
  | GameCancelled (game_id : List Nat)
  | PlayerRefunded (game_id : List Nat) (player : Pubkey) (amount : Nat)
deriving DecidableEq

/-- The 8 little-endian bytes of a `u64` value (`u64::to_le_bytes`). -/
def u64ToLeBytes (n : Nat) : List Nat :=
  (List.range 8).map (fun i => n / 256 ^ i % 256)

/-- The 8 little-endian bytes of an `i64` value (`i64::to_le_bytes`,
two's complement). -/
def i64ToLeBytes (t : Int) : List Nat :=
  u64ToLeBytes (t % (2 ^ 64 : Int)).toNat

/-- The seed committed by `start_game` (lib.rs lines 97-101): bytes 0..8
are `game_id`, bytes 8..16 the slot in little endian, bytes 16..24 the
timestamp in little endian, and bytes 24..32 stay zero. -/
def mkSeed (game_id : List Nat) (slot : Nat) (now : Int) : List Nat :=
  game_id ++ u64ToLeBytes slot ++ i64ToLeBytes now ++ List.replicate 8 0

/-- `total_pool = game.stake_amount * 5` (lib.rs line 134), with `u64`
wrapping semantics. -/
def totalPool (stake : Nat) : Nat := stake * 5 % U64MOD

/-- `house_fee = total_pool / 20` (lib.rs line 135, integer division). -/
def houseFee (stake : Nat) : Nat := totalPool stake / 20

/-- `winner_payout = total_pool - house_fee` (lib.rs line 136). -/
def winnerPayout (stake : Nat) : Nat := totalPool stake - houseFee stake

/-- The duplicate-join scan of lib.rs lines 57-59: is `player` among the
first `player_count` entries of `players`? -/
def joinedBefore (player : Pubkey) (g : Game) : Bool :=
  (List.range g.player_count).any (fun i => g.players.getD i 0 == player)

/-- `create_game` (lib.rs lines 19-46).  There is no check on
`stake_amount` in the handler; the guard below only embeds the Anchor
argument types (`game_id : [u8; 8]`, `stake_amount : u64`). -/
def createGame (creator : Pubkey) (game_id : List Nat) (stake_amount : Nat)
    (now : Int) (bump : Nat) : Except Err (World × Event) :=
  if game_id.length = 8 ∧ (∀ b ∈ game_id, b < 256) ∧ stake_amount < U64MOD then
    Except.ok
      ({ game :=
          { game_id := game_id
            creator := creator
            stake_amount := stake_amount
            player_count := 0
            players := List.replicate 5 pubkeyDefault
            status := GameStatus.Waiting
            seed := List.replicate 32 0
            winner := none
            created_at := now
            started_at := none
            bump := bump }
         vault := 0 },
       Event.GameCreated game_id creator stake_amount)
  else Except.error Err.badInput

/-- `join_game` (lib.rs lines 49-84): status and capacity checks, the
duplicate scan, then the SPL transfer of `stake_amount` from the player's
token account (authority: the player) into the vault, then the append. -/
def joinGame (player : Pubkey) (acct : AcctInfo) (w : World) :
    Except Err (World × Event) :=
  if w.game.status = GameStatus.Waiting then
    if w.game.player_count < 5 then
      if joinedBefore player w.game then Except.error (Err.escrow EscrowError.AlreadyJoined)
      else
        if w.game.stake_amount ≤ acct.amount then
          if acct.owner = player then
            if w.vault + w.game.stake_amount < U64MOD then
              Except.ok
                ({ game :=
                    { w.game with
                      players := w.game.players.set w.game.player_count player
                      player_count := w.game.player_count + 1 }
                   vault := w.vault + w.game.stake_amount },
                 Event.PlayerJoined w.game.game_id player (w.game.player_count + 1))
            else Except.error (Err.token TokenError.Overflow)
          else Except.error (Err.token TokenError.OwnerMismatch)
        else Except.error (Err.token TokenError.InsufficientFunds)
    else Except.error (Err.escrow EscrowError.GameFull)
  else Except.error (Err.escrow EscrowError.GameNotWaiting)

/-- `start_game` (lib.rs lines 88-114): requires `Waiting` and exactly 5
players, commits the seed, sets `Live` and `started_at`.  No funds move. -/
def startGame (slot : Nat) (now : Int) (w : World) :
    Except Err (World × Event) :=
  if w.game.status = GameStatus.Waiting then
    if w.game.player_count = 5 then
      Except.ok
        ({ w with game :=
            { w.game with
              seed := mkSeed w.game.game_id slot now
              status := GameStatus.Live
              started_at := some now } },
         Event.GameStarted w.game.game_id (mkSeed w.game.game_id slot now) now)
    else Except.error (Err.escrow EscrowError.NotEnoughPlayers)
  else Except.error (Err.escrow EscrowError.GameNotWaiting)

/-- `end_game` (lib.rs lines 118-180): requires `Live`, `winner_index < 5`
and a non-default winner entry; records `winner` and `Finished`, then pays
`winner_payout` to the supplied winner token account and `house_fee` to the
supplied house token account, both from the vault (vault is its own
authority).  The two transfers run in source order. -/
def endGame (winner_index : Nat) (winnerAcct houseAcct : AcctInfo) (w : World) :
    Except Err (World × Event) :=
  if w.game.status = GameStatus.Live then
    if winner_index < 5 then
      if w.game.players.getD winner_index 0 = pubkeyDefault then
        Except.error (Err.escrow EscrowError.InvalidWinner)
      else
        if winnerPayout w.game.stake_amount ≤ w.vault then
          if winnerAcct.amount + winnerPayout w.game.stake_amount < U64MOD then
            if houseFee w.game.stake_amount ≤ w.vault - winnerPayout w.game.stake_amount then
              if houseAcct.amount + houseFee w.game.stake_amount < U64MOD then
                Except.ok
                  ({ game :=
                      { w.game with
                        winner := some (w.game.players.getD winner_index 0)
                        status := GameStatus.Finished }
                     vault := w.vault - winnerPayout w.game.stake_amount
                              - houseFee w.game.stake_amount },
                   Event.GameEnded w.game.game_id (w.game.players.getD winner_index 0)
                     (winnerPayout w.game.stake_amount) (houseFee w.game.stake_amount))
              else Except.error (Err.token TokenError.Overflow)
            else Except.error (Err.token TokenError.InsufficientFunds)
          else Except.error (Err.token TokenError.Overflow)
        else Except.error (Err.token TokenError.InsufficientFunds)
    else Except.error (Err.escrow EscrowError.InvalidWinner)
  else Except.error (Err.escrow EscrowError.GameNotLive)

/-- `cancel_game` (lib.rs lines 183-200): requires `Waiting` (checked
first) and caller == creator; sets `Cancelled`.  No funds move. -/
def cancelGame (authority : Pubkey) (w : World) : Except Err (World × Event) :=
  if w.game.status = GameStatus.Waiting then
    if authority = w.game.creator then
      Except.ok
        ({ w with game := { w.game with status := GameStatus.Cancelled } },
         Event.GameCancelled w.game.game_id)
    else Except.error (Err.escrow EscrowError.Unauthorized)
  else Except.error (Err.escrow EscrowError.GameNotWaiting)

/-- `refund_player` (lib.rs lines 203-242): requires `Cancelled`,
`player_index < player_count`, and the destination token account to be
owned by `players[player_index]`; transfers `stake_amount` from the vault
to that account.  The game record is not mutated. -/
def refundPlayer (player_index : Nat) (acct : AcctInfo) (w : World) :
    Except Err (World × Event) :=
  if w.game.status = GameStatus.Cancelled then
    if player_index < w.game.player_count then
      if acct.owner = w.game.players.getD player_index 0 then
        if w.game.stake_amount ≤ w.vault then
          if acct.amount + w.game.stake_amount < U64MOD then
            Except.ok
              ({ w with vault := w.vault - w.game.stake_amount },
               Event.PlayerRefunded w.game.game_id
                 (w.game.players.getD player_index 0) w.game.stake_amount)
          else Except.error (Err.token TokenError.Overflow)
        else Except.error (Err.token TokenError.InsufficientFunds)
      else Except.error (Err.escrow EscrowError.WrongPlayer)
    else Except.error (Err.escrow EscrowError.InvalidPlayer)
  else Except.error (Err.escrow EscrowError.GameNotCancelled)

/-- One instruction invocation with its caller-supplied arguments and
clock/account inputs. -/
inductive Op where
  | create (creator : Pubkey) (game_id : List Nat) (stake_amount : Nat) (now : Int) (bump : Nat)
  | join (player : Pubkey) (acct : AcctInfo)
  | start (slot : Nat) (now : Int)
  | endG (winner_index : Nat) (winnerAcct houseAcct : AcctInfo)
  | cancel (authority : Pubkey)
  | refund (player_index : Nat) (acct : AcctInfo)
deriving DecidableEq

/-- Run one instruction against the chain state for one `game_id`:
`none` means the game account does not exist yet.  `create` requires the
account to be free (Anchor `init`); every other instruction requires it to
exist (Anchor account resolution). -/
def applyOp (o : Op) (s : Option World) : Except Err (World × Event) :=
  match s, o with
  | none, Op.create c gid st now b => createGame c gid st now b
  | none, _ => Except.error Err.accountMissing
  | some _, Op.create _ _ _ _ _ => Except.error Err.accountExists
  | some w, Op.join p a => joinGame p a w
  | some w, Op.start slot now => startGame slot now w
  | some w, Op.endG wi wa ha => endGame wi wa ha w
  | some w, Op.cancel auth => cancelGame auth w
  | some w, Op.refund pi a => refundPlayer pi a w

/-- The transaction boundary: the Solana runtime commits the mutated
accounts only on `Ok`; on `Err` every mutation is reverted. -/
def runC (o : Op) (s : Option World) : Option World :=
  match applyOp o s with
  | Except.ok (w, _) => some w
  | Except.error _ => s

/-- Run a sequence of instructions through the transaction boundary. -/
def runAll (os : List Op) (s : Option World) : Option World :=
  os.foldl (fun s o => runC o s) s

/-- Did the instruction succeed? -/
def isSuccess (r : Except Err (World × Event)) : Bool :=
  match r with
  | Except.ok _ => true
  | Except.error _ => false

/-- Reachable chain states for one game: start from the uncreated state
and take any sequence of successful instructions. -/
inductive Reach : Option World → Prop where
  | init : Reach none
  | step {w : World} {ev : Event} (s : Option World) (o : Op) (hr : Reach s)
      (hok : applyOp o s = Except.ok (w, ev)) : Reach (some w)

/-! ## Inversion lemmas: what a successful instruction implies -/

/-- A successful `create_game` call: the argument guard held and the fresh
record/vault are as lib.rs lines 27-37 write them. -/
theorem createGame_ok {c : Pubkey} {gid : List Nat} {st : Nat} {now : Int} {b : Nat}
    {w : World} {ev : Event} (h : createGame c gid st now b = Except.ok (w, ev)) :
    gid.length = 8 ∧ (∀ x ∈ gid, x < 256) ∧ st < U64MOD ∧
    w = { game :=
            { game_id := gid, creator := c, stake_amount := st, player_count := 0,
              players := List.replicate 5 pubkeyDefault, status := GameStatus.Waiting,
              seed := List.replicate 32 0, winner := none, created_at := now,
              started_at := none, bump := b },
          vault := 0 } ∧
    ev = Event.GameCreated gid c st := by
  unfold createGame at h
  split_ifs at h with hg
  rw [Except.ok.injEq, Prod.mk.injEq] at h
  exact ⟨hg.1, hg.2.1, hg.2.2, h.1.symm, h.2.symm⟩

/-- A successful `join_game` call: preconditions plus the exact effect. -/
theorem joinGame_ok {p : Pubkey} {a : AcctInfo} {w w' : World} {ev : Event}
    (h : joinGame p a w = Except.ok (w', ev)) :
    w.game.status = GameStatus.Waiting ∧ w.game.player_count < 5 ∧
    joinedBefore p w.game = false ∧ w.game.stake_amount ≤ a.amount ∧
    a.owner = p ∧ w.vault + w.game.stake_amount < U64MOD ∧
    w' = { game :=
            { w.game with
              players := w.game.players.set w.game.player_count p
              player_count := w.game.player_count + 1 }
           vault := w.vault + w.game.stake_amount } ∧
    ev = Event.PlayerJoined w.game.game_id p (w.game.player_count + 1) := by
  unfold joinGame at h
  split_ifs at h with h1 h2 h3 h4 h5 h6
  rw [Except.ok.injEq, Prod.mk.injEq] at h
  exact ⟨h1, h2, by simpa using h3, h4, h5, h6, h.1.symm, h.2.symm⟩

/-- A successful `start_game` call: preconditions plus the exact effect. -/
theorem startGame_ok {slot : Nat} {now : Int} {w w' : World} {ev : Event}
    (h : startGame slot now w = Except.ok (w', ev)) :
    w.game.status = GameStatus.Waiting ∧ w.game.player_count = 5 ∧
    w' = { w with game :=
            { w.game with
              seed := mkSeed w.game.game_id slot now
              status := GameStatus.Live
              started_at := some now } } ∧
    ev = Event.GameStarted w.game.game_id (mkSeed w.game.game_id slot now) now := by
  unfold startGame at h
  split_ifs at h with h1 h2
  rw [Except.ok.injEq, Prod.mk.injEq] at h
  exact ⟨h1, h2, h.1.symm, h.2.symm⟩

/-- A successful `end_game` call: preconditions (including the transfer
checks) plus the exact effect. -/
theorem endGame_ok {wi : Nat} {wa ha : AcctInfo} {w w' : World} {ev : Event}
    (h : endGame wi wa ha w = Except.ok (w', ev)) :
    w.game.status = GameStatus.Live ∧ wi < 5 ∧
    w.game.players.getD wi 0 ≠ pubkeyDefault ∧
    winnerPayout w.game.stake_amount ≤ w.vault ∧
    wa.amount + winnerPayout w.game.stake_amount < U64MOD ∧
    houseFee w.game.stake_amount ≤ w.vault - winnerPayout w.game.stake_amount ∧
    ha.amount + houseFee w.game.stake_amount < U64MOD ∧
    w' = { game :=
            { w.game with
              winner := some (w.game.players.getD wi 0)
              status := GameStatus.Finished }
           vault := w.vault - winnerPayout w.game.stake_amount
                    - houseFee w.game.stake_amount } ∧
    ev = Event.GameEnded w.game.game_id (w.game.players.getD wi 0)
           (winnerPayout w.game.stake_amount) (houseFee w.game.stake_amount) := by
  unfold endGame at h
  split_ifs at h with h1 h2 h3 h4 h5 h6 h7
  rw [Except.ok.injEq, Prod.mk.injEq] at h
  exact ⟨h1, h2, h3, h4, h5, h6, h7, h.1.symm, h.2.symm⟩

/-- A successful `cancel_game` call: preconditions plus the exact effect. -/
theorem cancelGame_ok {auth : Pubkey} {w w' : World} {ev : Event}
    (h : cancelGame auth w = Except.ok (w', ev)) :
    w.game.status = GameStatus.Waiting ∧ auth = w.game.creator ∧
    w' = { w with game := { w.game with status := GameStatus.Cancelled } } ∧
    ev = Event.GameCancelled w.game.game_id := by
  unfold cancelGame at h
  split_ifs at h with h1 h2
  rw [Except.ok.injEq, Prod.mk.injEq] at h
  exact ⟨h1, h2, h.1.symm, h.2.symm⟩

/-- A successful `refund_player` call: preconditions plus the exact
effect; the game record itself is untouched. -/
theorem refundPlayer_ok {pi : Nat} {a : AcctInfo} {w w' : World} {ev : Event}
    (h : refundPlayer pi a w = Except.ok (w', ev)) :
    w.game.status = GameStatus.Cancelled ∧ pi < w.game.player_count ∧
    a.owner = w.game.players.getD pi 0 ∧
    w.game.stake_amount ≤ w.vault ∧ a.amount + w.game.stake_amount < U64MOD ∧
    w' = { w with vault := w.vault - w.game.stake_amount } ∧
    ev = Event.PlayerRefunded w.game.game_id (w.game.players.getD pi 0)
           w.game.stake_amount := by
  unfold refundPlayer at h
  split_ifs at h with h1 h2 h3 h4 h5
  rw [Except.ok.injEq, Prod.mk.injEq] at h
  exact ⟨h1, h2, h3, h4, h5, h.1.symm, h.2.symm⟩

/-! ## Payout arithmetic lemmas -/

/-- `house_fee` never exceeds `total_pool`, so the subtraction in
`winner_payout` cannot underflow. -/
theorem houseFee_le (stake : Nat) : houseFee stake ≤ totalPool stake :=
  Nat.div_le_self _ _

/-- `winner_payout + house_fee = total_pool`, exactly, for every stake. -/
theorem winnerPayout_add_houseFee (stake : Nat) :
    winnerPayout stake + houseFee stake = totalPool stake :=
  Nat.sub_add_cancel (houseFee_le stake)

/-- When `stake * 5` fits in a `u64`, `total_pool` is exactly `stake * 5`. -/
theorem totalPool_eq_of_lt {stake : Nat} (h : stake * 5 < U64MOD) :
    totalPool stake = stake * 5 :=
  Nat.mod_eq_of_lt h

/-! ## The reachable-state invariant -/

/-- Structural invariant of every reachable created game: field sizes, the
`u64` bounds, the escrow balance equation for `Waiting`/`Live`, and the
full player list for `Live`/`Finished`. -/
structure Inv (w : World) : Prop where
  gid_len : w.game.game_id.length = 8
  players_len : w.game.players.length = 5
  count_le : w.game.player_count ≤ 5
  stake_lt : w.game.stake_amount < U64MOD
  vault_lt : w.vault < U64MOD
  balance : w.game.status = GameStatus.Waiting ∨ w.game.status = GameStatus.Live →
    w.vault = w.game.stake_amount * w.game.player_count
  full : w.game.status = GameStatus.Live ∨ w.game.status = GameStatus.Finished →
    w.game.player_count = 5

/-- `create_game` establishes the invariant. -/
theorem createGame_inv {c : Pubkey} {gid : List Nat} {st : Nat} {now : Int} {b : Nat}
    {w : World} {ev : Event} (h : createGame c gid st now b = Except.ok (w, ev)) :
    Inv w := by
  obtain ⟨hlen, -, hst, hw, -⟩ := createGame_ok h
  subst hw
  exact ⟨hlen, by simp, by simp, hst, by simp [U64MOD], by simp, by simp⟩

/-- `join_game` preserves the invariant. -/
theorem joinGame_inv {p : Pubkey} {a : AcctInfo} {w w' : World} {ev : Event}
    (hi : Inv w) (h : joinGame p a w = Except.ok (w', ev)) : Inv w' := by
  obtain ⟨h1, h2, -, -, -, h6, hw, -⟩ := joinGame_ok h
  subst hw
  refine ⟨hi.gid_len, ?_, h2, hi.stake_lt, h6, ?_, ?_⟩
  · simpa using hi.players_len
  · intro _
    have hb := hi.balance (Or.inl h1)
    simp only [hb, Nat.mul_succ]
  · intro hc
    rcases hc with hc | hc <;> simp only [h1] at hc <;> exact GameStatus.noConfusion hc

/-- `start_game` preserves the invariant. -/
theorem startGame_inv {slot : Nat} {now : Int} {w w' : World} {ev : Event}
    (hi : Inv w) (h : startGame slot now w = Except.ok (w', ev)) : Inv w' := by
  obtain ⟨h1, h2, hw, -⟩ := startGame_ok h
  subst hw
  exact ⟨hi.gid_len, hi.players_len, hi.count_le, hi.stake_lt, hi.vault_lt,
    fun _ => hi.balance (Or.inl h1), fun _ => h2⟩

/-- `end_game` preserves the invariant. -/
theorem endGame_inv {wi : Nat} {wa ha : AcctInfo} {w w' : World} {ev : Event}
    (hi : Inv w) (h : endGame wi wa ha w = Except.ok (w', ev)) : Inv w' := by
  obtain ⟨h1, -, -, -, -, -, -, hw, -⟩ := endGame_ok h
  subst hw
  refine ⟨hi.gid_len, hi.players_len, hi.count_le, hi.stake_lt, ?_, ?_, ?_⟩
  · exact lt_of_le_of_lt (le_trans (Nat.sub_le _ _) (Nat.sub_le _ _)) hi.vault_lt
  · intro hc
    rcases hc with hc | hc <;> exact GameStatus.noConfusion hc
  · intro _
    exact hi.full (Or.inl h1)

/-- `cancel_game` preserves the invariant. -/
theorem cancelGame_inv {auth : Pubkey} {w w' : World} {ev : Event}
    (hi : Inv w) (h : cancelGame auth w = Except.ok (w', ev)) : Inv w' := by
  obtain ⟨-, -, hw, -⟩ := cancelGame_ok h
  subst hw
  refine ⟨hi.gid_len, hi.players_len, hi.count_le, hi.stake_lt, hi.vault_lt, ?_, ?_⟩
  · intro hc
    rcases hc with hc | hc <;> exact GameStatus.noConfusion hc
  · intro hc
    rcases hc with hc | hc <;> exact GameStatus.noConfusion hc

/-- `refund_player` preserves the invariant. -/
theorem refundPlayer_inv {pi : Nat} {a : AcctInfo} {w w' : World} {ev : Event}
    (hi : Inv w) (h : refundPlayer pi a w = Except.ok (w', ev)) : Inv w' := by
  obtain ⟨h1, -, -, -, -, hw, -⟩ := refundPlayer_ok h
  subst hw
  refine ⟨hi.gid_len, hi.players_len, hi.count_le, hi.stake_lt, ?_, ?_, ?_⟩
  · exact lt_of_le_of_lt (Nat.sub_le _ _) hi.vault_lt
  · intro hc
    rcases hc with hc | hc <;> simp only [h1] at hc <;> exact GameStatus.noConfusion hc
  · intro hc
    rcases hc with hc | hc <;> simp only [h1] at hc <;> exact GameStatus.noConfusion hc

/-- Every reachable created state satisfies the invariant. -/
theorem invOfReach : ∀ {s : Option World}, Reach s → ∀ {w : World}, s = some w → Inv w := by
  intro s h
  induction h with
  | init => intro w hw; exact Option.noConfusion hw
  | step s o hr hok ih =>
    intro w hw
    obtain rfl := Option.some.inj hw
    cases s with
    | none =>
      cases o with
      | create c gid st now b => exact createGame_inv hok
      | join p a => simp [applyOp] at hok
      | start slot now => simp [applyOp] at hok
      | endG wi wa ha => simp [applyOp] at hok
      | cancel auth => simp [applyOp] at hok
      | refund pi a => simp [applyOp] at hok
    | some w0 =>
      have hi := ih rfl
      cases o with
      | create c gid st now b => simp [applyOp] at hok
      | join p a => exact joinGame_inv hi hok
      | start slot now => exact startGame_inv hi hok
      | endG wi wa ha => exact endGame_inv hi hok
      | cancel auth => exact cancelGame_inv hi hok
      | refund pi a => exact refundPlayer_inv hi hok

/-- The invariant holds at every reachable created game. -/
theorem reachInv {w : World} (h : Reach (some w)) : Inv w :=
  invOfReach h rfl

/-- In a reachable `Live` game the vault holds exactly the five stakes,
and that amount fits in a `u64`. -/
theorem liveVault {w : World} (h : Reach (some w))
    (hl : w.game.status = GameStatus.Live) :
    w.vault = w.game.stake_amount * 5 ∧ w.game.stake_amount * 5 < U64MOD := by
  have hi := reachInv h
  have hc := hi.full (Or.inl hl)
  have hb := hi.balance (Or.inr hl)
  rw [hc] at hb
  exact ⟨hb, hb ▸ hi.vault_lt⟩

/-! ## Forward-evaluation lemmas: when the preconditions hold -/

/-- `join_game` succeeds when all checks (including the token transfer's)
pass, with the exact resulting state and event. -/
theorem joinGame_run {p : Pubkey} {a : AcctInfo} {w : World}
    (h1 : w.game.status = GameStatus.Waiting) (h2 : w.game.player_count < 5)
    (h3 : joinedBefore p w.game = false) (h4 : w.game.stake_amount ≤ a.amount)
    (h5 : a.owner = p) (h6 : w.vault + w.game.stake_amount < U64MOD) :
    joinGame p a w = Except.ok
      ({ game :=
          { w.game with
            players := w.game.players.set w.game.player_count p
            player_count := w.game.player_count + 1 }
         vault := w.vault + w.game.stake_amount },
       Event.PlayerJoined w.game.game_id p (w.game.player_count + 1)) := by
  unfold joinGame
  rw [if_pos h1, if_pos h2, if_neg (by simp [h3]), if_pos h4, if_pos h5, if_pos h6]

/-- `start_game` succeeds when `Waiting` with 5 players. -/
theorem startGame_run {slot : Nat} {now : Int} {w : World}
    (h1 : w.game.status = GameStatus.Waiting) (h2 : w.game.player_count = 5) :
    startGame slot now w = Except.ok
      ({ w with game :=
          { w.game with
            seed := mkSeed w.game.game_id slot now
            status := GameStatus.Live
            started_at := some now } },
       Event.GameStarted w.game.game_id (mkSeed w.game.game_id slot now) now) := by
  unfold startGame
  rw [if_pos h1, if_pos h2]

/-- `end_game` succeeds when the escrow checks and both transfer checks
pass. -/
theorem endGame_run {wi : Nat} {wa ha : AcctInfo} {w : World}
    (h1 : w.game.status = GameStatus.Live) (h2 : wi < 5)
    (h3 : w.game.players.getD wi 0 ≠ pubkeyDefault)
    (h4 : winnerPayout w.game.stake_amount ≤ w.vault)
    (h5 : wa.amount + winnerPayout w.game.stake_amount < U64MOD)
    (h6 : houseFee w.game.stake_amount ≤ w.vault - winnerPayout w.game.stake_amount)
    (h7 : ha.amount + houseFee w.game.stake_amount < U64MOD) :
    endGame wi wa ha w = Except.ok
      ({ game :=
          { w.game with
            winner := some (w.game.players.getD wi 0)
            status := GameStatus.Finished }
         vault := w.vault - winnerPayout w.game.stake_amount
                  - houseFee w.game.stake_amount },
       Event.GameEnded w.game.game_id (w.game.players.getD wi 0)
         (winnerPayout w.game.stake_amount) (houseFee w.game.stake_amount)) := by
  unfold endGame
  rw [if_pos h1, if_pos h2, if_neg h3, if_pos h4, if_pos h5, if_pos h6, if_pos h7]

/-- `refund_player` succeeds when the escrow checks and the transfer
checks pass. -/
theorem refundPlayer_run {pi : Nat} {a : AcctInfo} {w : World}
    (h1 : w.game.status = GameStatus.Cancelled) (h2 : pi < w.game.player_count)
    (h3 : a.owner = w.game.players.getD pi 0)
    (h4 : w.game.stake_amount ≤ w.vault)
    (h5 : a.amount + w.game.stake_amount < U64MOD) :
    refundPlayer pi a w = Except.ok
      ({ w with vault := w.vault - w.game.stake_amount },
       Event.PlayerRefunded w.game.game_id (w.game.players.getD pi 0)
         w.game.stake_amount) := by
  unfold refundPlayer
  rw [if_pos h1, if_pos h2, if_pos h3, if_pos h4, if_pos h5]

/-! ## Error-path lemmas -/

/-- `join_game` on a non-`Waiting` game fails with `GameNotWaiting`. -/
theorem joinGame_err_notWaiting {p : Pubkey} {a : AcctInfo} {w : World}
    (h : w.game.status ≠ GameStatus.Waiting) :
    joinGame p a w = Except.error (Err.escrow EscrowError.GameNotWaiting) := by
  unfold joinGame
  rw [if_neg h]

/-- `join_game` on a full `Waiting` game fails with `GameFull` — the
capacity check (lib.rs line 53) runs before the duplicate scan. -/
theorem joinGame_err_full {p : Pubkey} {a : AcctInfo} {w : World}
    (h1 : w.game.status = GameStatus.Waiting) (h2 : ¬ w.game.player_count < 5) :
    joinGame p a w = Except.error (Err.escrow EscrowError.GameFull) := by
  unfold joinGame
  rw [if_pos h1, if_neg h2]

/-- `join_game` by an already-listed player on a non-full `Waiting` game
fails with `AlreadyJoined`. -/
theorem joinGame_err_dup {p : Pubkey} {a : AcctInfo} {w : World}
    (h1 : w.game.status = GameStatus.Waiting) (h2 : w.game.player_count < 5)
    (h3 : joinedBefore p w.game = true) :
    joinGame p a w = Except.error (Err.escrow EscrowError.AlreadyJoined) := by
  unfold joinGame
  rw [if_pos h1, if_pos h2, if_pos (by simp [h3])]

/-- `start_game` on a non-`Waiting` game fails with `GameNotWaiting`. -/
theorem startGame_err_notWaiting {slot : Nat} {now : Int} {w : World}
    (h : w.game.status ≠ GameStatus.Waiting) :
    startGame slot now w = Except.error (Err.escrow EscrowError.GameNotWaiting) := by
  unfold startGame
  rw [if_neg h]

/-- `start_game` on a `Waiting` game without 5 players fails with
`NotEnoughPlayers`. -/
theorem startGame_err_notEnough {slot : Nat} {now : Int} {w : World}
    (h1 : w.game.status = GameStatus.Waiting) (h2 : w.game.player_count ≠ 5) :
    startGame slot now w = Except.error (Err.escrow EscrowError.NotEnoughPlayers) := by
  unfold startGame
  rw [if_pos h1, if_neg h2]

/-- `end_game` on a non-`Live` game fails with `GameNotLive`, whatever
the winner index — the status check (lib.rs line 124) runs first. -/
theorem endGame_err_notLive {wi : Nat} {wa ha : AcctInfo} {w : World}
    (h : w.game.status ≠ GameStatus.Live) :
    endGame wi wa ha w = Except.error (Err.escrow EscrowError.GameNotLive) := by
  unfold endGame
  rw [if_neg h]

/-- `end_game` on a `Live` game with `winner_index ≥ 5` fails with
`InvalidWinner`. -/
theorem endGame_err_badIndex {wi : Nat} {wa ha : AcctInfo} {w : World}
    (h1 : w.game.status = GameStatus.Live) (h2 : ¬ wi < 5) :
    endGame wi wa ha w = Except.error (Err.escrow EscrowError.InvalidWinner) := by
  unfold endGame
  rw [if_pos h1, if_neg h2]

/-- `cancel_game` on a non-`Waiting` game fails with `GameNotWaiting`. -/
theorem cancelGame_err_notWaiting {auth : Pubkey} {w : World}
    (h : w.game.status ≠ GameStatus.Waiting) :
    cancelGame auth w = Except.error (Err.escrow EscrowError.GameNotWaiting) := by
  unfold cancelGame
  rw [if_neg h]

/-- `refund_player` on a non-`Cancelled` game fails with
`GameNotCancelled`. -/
theorem refundPlayer_err_notCancelled {pi : Nat} {a : AcctInfo} {w : World}
    (h : w.game.status ≠ GameStatus.Cancelled) :
    refundPlayer pi a w = Except.error (Err.escrow EscrowError.GameNotCancelled) := by
  unfold refundPlayer
  rw [if_neg h]

/-- `refund_player` with an index not below `player_count` fails with
`InvalidPlayer`. -/
theorem refundPlayer_err_badIndex {pi : Nat} {a : AcctInfo} {w : World}
    (h1 : w.game.status = GameStatus.Cancelled) (h2 : ¬ pi < w.game.player_count) :
    refundPlayer pi a w = Except.error (Err.escrow EscrowError.InvalidPlayer) := by
  unfold refundPlayer
  rw [if_pos h1, if_neg h2]

/-! ## Concrete traces

Trace A: a full happy path with `game_id = gid1`, stake 100, creator 1,
players 10..14, started at slot 7 time 1000, ended with winner index 2.
Trace B: a cancellation path with two joined players and repeated refunds.
Trace Z: the degenerate start with all-zero `game_id`, slot 0, time 0. -/

def gid1 : List Nat := [0, 0, 0, 0, 0, 0, 0, 1]

def gidB : List Nat := [0, 0, 0, 0, 0, 0, 0, 2]

def gid0 : List Nat := List.replicate 8 0

/-- A `Waiting` game record as the running examples use it. -/
def mkWaiting (gid : List Nat) (ps : List Pubkey) (pc vault : Nat) : World :=
  { game :=
      { game_id := gid, creator := 1, stake_amount := 100, player_count := pc,
        players := ps, status := GameStatus.Waiting, seed := List.replicate 32 0,
        winner := none, created_at := 0, started_at := none, bump := 255 },
    vault := vault }

def worldA0 : World := mkWaiting gid1 [0, 0, 0, 0, 0] 0 0

def worldA1 : World := mkWaiting gid1 [10, 0, 0, 0, 0] 1 100

def worldA2 : World := mkWaiting gid1 [10, 11, 0, 0, 0] 2 200

def worldA3 : World := mkWaiting gid1 [10, 11, 12, 0, 0] 3 300

def worldA4 : World := mkWaiting gid1 [10, 11, 12, 13, 0] 4 400

def worldA5 : World := mkWaiting gid1 [10, 11, 12, 13, 14] 5 500

/-- Trace A after `start_game` at slot 7, time 1000. -/
def worldLive : World :=
  { game :=
      { game_id := gid1, creator := 1, stake_amount := 100, player_count := 5,
        players := [10, 11, 12, 13, 14], status := GameStatus.Live,
        seed := mkSeed gid1 7 1000, winner := none, created_at := 0,
        started_at := some 1000, bump := 255 },
    vault := 500 }

/-- Trace A after `end_game` with winner index 2. -/
def worldDone : World :=
  { game :=
      { game_id := gid1, creator := 1, stake_amount := 100, player_count := 5,
        players := [10, 11, 12, 13, 14], status := GameStatus.Finished,
        seed := mkSeed gid1 7 1000, winner := some 12, created_at := 0,
        started_at := some 1000, bump := 255 },
    vault := 500 - winnerPayout 100 - houseFee 100 }

def worldB0 : World := mkWaiting gidB [0, 0, 0, 0, 0] 0 0

def worldB1 : World := mkWaiting gidB [10, 0, 0, 0, 0] 1 100

def worldB2 : World := mkWaiting gidB [10, 11, 0, 0, 0] 2 200

/-- Trace B after `cancel_game`, with `vault` stakes still held. -/
def mkCancelledB (vault : Nat) : World :=
  { game :=
      { game_id := gidB, creator := 1, stake_amount := 100, player_count := 2,
        players := [10, 11, 0, 0, 0], status := GameStatus.Cancelled,
        seed := List.replicate 32 0, winner := none, created_at := 0,
        started_at := none, bump := 255 },
    vault := vault }

def worldB3 : World := mkCancelledB 200

def worldB4 : World := mkCancelledB 100

def worldB5 : World := mkCancelledB 0

def worldZ5 : World := mkWaiting gid0 [10, 11, 12, 13, 14] 5 500

/-- Trace Z after `start_game` at slot 0, time 0: its committed seed is
all-zero. -/
def worldZLive : World :=
  { game :=
      { game_id := gid0, creator := 1, stake_amount := 100, player_count := 5,
        players := [10, 11, 12, 13, 14], status := GameStatus.Live,
        seed := mkSeed gid0 0 0, winner := none, created_at := 0,
        started_at := some 0, bump := 255 },
    vault := 500 }

theorem reachA0 : Reach (some worldA0) :=
  @Reach.step worldA0 (Event.GameCreated gid1 1 100) none
    (Op.create 1 gid1 100 0 255) Reach.init (by rfl)

theorem reachA1 : Reach (some worldA1) :=
  @Reach.step worldA1 (Event.PlayerJoined gid1 10 1) (some worldA0)
    (Op.join 10 ⟨10, 100⟩) reachA0 (by rfl)

theorem reachA2 : Reach (some worldA2) :=
  @Reach.step worldA2 (Event.PlayerJoined gid1 11 2) (some worldA1)
    (Op.join 11 ⟨11, 100⟩) reachA1 (by rfl)

theorem reachA3 : Reach (some worldA3) :=
  @Reach.step worldA3 (Event.PlayerJoined gid1 12 3) (some worldA2)
    (Op.join 12 ⟨12, 100⟩) reachA2 (by rfl)

theorem reachA4 : Reach (some worldA4) :=
  @Reach.step worldA4 (Event.PlayerJoined gid1 13 4) (some worldA3)
    (Op.join 13 ⟨13, 100⟩) reachA3 (by rfl)

theorem reachA5 : Reach (some worldA5) :=
  @Reach.step worldA5 (Event.PlayerJoined gid1 14 5) (some worldA4)
    (Op.join 14 ⟨14, 100⟩) reachA4 (by rfl)

theorem reachLive : Reach (some worldLive) :=
  @Reach.step worldLive (Event.GameStarted gid1 (mkSeed gid1 7 1000) 1000)
    (some worldA5) (Op.start 7 1000) reachA5 (by rfl)

theorem reachDone : Reach (some worldDone) :=
  @Reach.step worldDone (Event.GameEnded gid1 12 (winnerPayout 100) (houseFee 100))
    (some worldLive) (Op.endG 2 ⟨20, 0⟩ ⟨30, 0⟩) reachLive (by rfl)

theorem reachB0 : Reach (some worldB0) :=
  @Reach.step worldB0 (Event.GameCreated gidB 1 100) none
    (Op.create 1 gidB 100 0 255) Reach.init (by rfl)

theorem reachB1 : Reach (some worldB1) :=
  @Reach.step worldB1 (Event.PlayerJoined gidB 10 1) (some worldB0)
    (Op.join 10 ⟨10, 100⟩) reachB0 (by rfl)

theorem reachB2 : Reach (some worldB2) :=
  @Reach.step worldB2 (Event.PlayerJoined gidB 11 2) (some worldB1)
    (Op.join 11 ⟨11, 100⟩) reachB1 (by rfl)

theorem reachB3 : Reach (some worldB3) :=
  @Reach.step worldB3 (Event.GameCancelled gidB) (some worldB2)
    (Op.cancel 1) reachB2 (by rfl)

theorem reachB4 : Reach (some worldB4) :=
  @Reach.step worldB4 (Event.PlayerRefunded gidB 10 100) (some worldB3)
    (Op.refund 0 ⟨10, 0⟩) reachB3 (by rfl)

theorem reachB5 : Reach (some worldB5) :=
  @Reach.step worldB5 (Event.PlayerRefunded gidB 10 100) (some worldB4)
    (Op.refund 0 ⟨10, 100⟩) reachB4 (by rfl)

/-! ## Transaction-boundary and status-machine helpers -/

/-- A failing instruction commits nothing. -/
theorem runC_error {o : Op} {s : Option World} {e : Err}
    (h : applyOp o s = Except.error e) : runC o s = s := by
  unfold runC
  rw [h]

/-- A succeeding instruction commits its new world. -/
theorem runC_ok {o : Op} {s : Option World} {w : World} {ev : Event}
    (h : applyOp o s = Except.ok (w, ev)) : runC o s = some w := by
  unfold runC
  rw [h]

theorem runAll_cons (o : Op) (os : List Op) (s : Option World) :
    runAll (o :: os) s = runAll os (runC o s) := rfl

/-- The status edges the program can take in one successful instruction:
stay put, `Waiting → Live`, `Live → Finished`, or `Waiting → Cancelled`. -/
def statusStep (a b : GameStatus) : Prop :=
  a = b ∨ (a = GameStatus.Waiting ∧ b = GameStatus.Live) ∨
  (a = GameStatus.Live ∧ b = GameStatus.Finished) ∨
  (a = GameStatus.Waiting ∧ b = GameStatus.Cancelled)

/-- Every successful instruction moves the status along an allowed edge. -/
theorem step_statusStep {o : Op} {w w' : World} {ev : Event}
    (h : applyOp o (some w) = Except.ok (w', ev)) :
    statusStep w.game.status w'.game.status := by
  cases o with
  | create c gid st now b => simp [applyOp] at h
  | join p a =>
    obtain ⟨-, -, -, -, -, -, hw, -⟩ := joinGame_ok h
    subst hw
    exact Or.inl rfl
  | start slot now =>
    obtain ⟨h1, -, hw, -⟩ := startGame_ok h
    subst hw
    exact Or.inr (Or.inl ⟨h1, rfl⟩)
  | endG wi wa ha =>
    obtain ⟨h1, -, -, -, -, -, -, hw, -⟩ := endGame_ok h
    subst hw
    exact Or.inr (Or.inr (Or.inl ⟨h1, rfl⟩))
  | cancel auth =>
    obtain ⟨h1, -, hw, -⟩ := cancelGame_ok h
    subst hw
    exact Or.inr (Or.inr (Or.inr ⟨h1, rfl⟩))
  | refund pi a =>
    obtain ⟨-, -, -, -, -, hw, -⟩ := refundPlayer_ok h
    subst hw
    exact Or.inl rfl

/-- No edge leaves `Cancelled`. -/
theorem statusStep_cancelled {b : GameStatus}
    (h : statusStep GameStatus.Cancelled b) : b = GameStatus.Cancelled := by
  rcases h with h | ⟨h, -⟩ | ⟨h, -⟩ | ⟨h, -⟩
  · exact h.symm
  all_goals exact GameStatus.noConfusion h

/-- No edge leaves `Finished`. -/
theorem statusStep_finished {b : GameStatus}
    (h : statusStep GameStatus.Finished b) : b = GameStatus.Finished := by
  rcases h with h | ⟨h, -⟩ | ⟨h, -⟩ | ⟨h, -⟩
  · exact h.symm
  all_goals exact GameStatus.noConfusion h

/-- Once `Cancelled`, a game stays `Cancelled` under any instruction
sequence. -/
theorem cancelled_stays {w : World} (hc : w.game.status = GameStatus.Cancelled) :
    ∀ os : List Op, (runAll os (some w)).map (fun x => x.game.status) =
      some GameStatus.Cancelled := by
  intro os
  induction os generalizing w with
  | nil => simp [runAll, hc]
  | cons o os ih =>
    rw [runAll_cons]
    cases happ : applyOp o (some w) with
    | ok r =>
      obtain ⟨w', ev⟩ := r
      rw [runC_ok happ]
      have hs := step_statusStep happ
      rw [hc] at hs
      exact ih (statusStep_cancelled hs)
    | error e =>
      rw [runC_error happ]
      exact ih hc

/-- Once `Finished`, a game stays `Finished` under any instruction
sequence. -/
theorem finished_stays {w : World} (hc : w.game.status = GameStatus.Finished) :
    ∀ os : List Op, (runAll os (some w)).map (fun x => x.game.status) =
      some GameStatus.Finished := by
  intro os
  induction os generalizing w with
  | nil => simp [runAll, hc]
  | cons o os ih =>
    rw [runAll_cons]
    cases happ : applyOp o (some w) with
    | ok r =>
      obtain ⟨w', ev⟩ := r
      rw [runC_ok happ]
      have hs := step_statusStep happ
      rw [hc] at hs
      exact ih (statusStep_finished hs)
    | error e =>
      rw [runC_error happ]
      exact ih hc

/-! ## Byte-layout helpers for the seed -/

theorem u64ToLeBytes_length (n : Nat) : (u64ToLeBytes n).length = 8 := by
  simp [u64ToLeBytes]

theorem i64ToLeBytes_length (t : Int) : (i64ToLeBytes t).length = 8 :=
  u64ToLeBytes_length _

/-- Splitting a 32-byte all-zero seed along the four 8-byte fields. -/
theorem seed_zero_split {gid a b : List Nat} (hg : gid.length = 8)
    (ha : a.length = 8) (hb : b.length = 8)
    (h : gid ++ a ++ b ++ List.replicate 8 0 = List.replicate 32 (0 : Nat)) :
    gid = List.replicate 8 0 ∧ a = List.replicate 8 0 ∧ b = List.replicate 8 0 := by
  have h32 : List.replicate 32 (0 : Nat) =
      (List.replicate 8 0 ++ List.replicate 8 0 ++ List.replicate 8 0) ++
        List.replicate 8 0 := by decide
  rw [h32] at h
  have hlen1 : (gid ++ a ++ b).length =
      (List.replicate 8 (0 : Nat) ++ List.replicate 8 0 ++ List.replicate 8 0).length := by
    simp [hg, ha, hb]
  obtain ⟨h2, -⟩ := List.append_inj h hlen1
  have hlen2 : (gid ++ a).length =
      (List.replicate 8 (0 : Nat) ++ List.replicate 8 0).length := by
    simp [hg, ha]
  obtain ⟨h3, hbz⟩ := List.append_inj h2 hlen2
  have hlen3 : gid.length = (List.replicate 8 (0 : Nat)).length := by simp [hg]
  obtain ⟨hgz, haz⟩ := List.append_inj h3 hlen3
  exact ⟨hgz, haz, hbz⟩

/-! ## The claims -/

/-- C1: for every reachable game, a successful `end` computes
`total_pool = stake_amount * 5` (exactly — no wrap is possible because the
vault, a `u64`, already holds the five stakes), `house_fee = total_pool / 20`
(floor), `winner_payout = total_pool - house_fee`, and
`winner_payout + house_fee = total_pool` holds exactly; in particular for
stake 19 the values are 95 / 4 / 91 and for stake 1000 they are
5000 / 250 / 4750. -/
theorem claim_C1 :
    (∀ (w : World), Reach (some w) →
      ∀ (wi : Nat) (wa ha : AcctInfo) (w' : World) (ev : Event),
      endGame wi wa ha w = Except.ok (w', ev) →
      totalPool w.game.stake_amount = w.game.stake_amount * 5 ∧
      houseFee w.game.stake_amount = w.game.stake_amount * 5 / 20 ∧
      winnerPayout w.game.stake_amount =
        w.game.stake_amount * 5 - w.game.stake_amount * 5 / 20 ∧
      winnerPayout w.game.stake_amount + houseFee w.game.stake_amount =
        totalPool w.game.stake_amount ∧
      ev = Event.GameEnded w.game.game_id (w.game.players.getD wi 0)
             (winnerPayout w.game.stake_amount) (houseFee w.game.stake_amount)) ∧
    totalPool 19 = 95 ∧ houseFee 19 = 4 ∧ winnerPayout 19 = 91 ∧
    totalPool 1000 = 5000 ∧ houseFee 1000 = 250 ∧ winnerPayout 1000 = 4750 := by
  refine ⟨?_, by rfl, by rfl, by rfl, by rfl, by rfl, by rfl⟩
  intro w hr wi wa ha w' ev hok
  obtain ⟨h1, -, -, -, -, -, -, -, hev⟩ := endGame_ok hok
  obtain ⟨hv, hlt⟩ := liveVault hr h1
  have htp := totalPool_eq_of_lt hlt
  refine ⟨htp, ?_, ?_, winnerPayout_add_houseFee _, hev⟩
  · rw [houseFee, htp]
  · rw [winnerPayout, houseFee, htp]

/-- Witness for C1 on the concrete happy-path trace: the reachable `Live`
game with stake 100 ended at winner index 2 pays 475 + 25 = 500. -/
theorem claim_C1_witness :
    totalPool worldLive.game.stake_amount = worldLive.game.stake_amount * 5 ∧
    houseFee worldLive.game.stake_amount = worldLive.game.stake_amount * 5 / 20 ∧
    winnerPayout worldLive.game.stake_amount =
      worldLive.game.stake_amount * 5 - worldLive.game.stake_amount * 5 / 20 ∧
    winnerPayout worldLive.game.stake_amount + houseFee worldLive.game.stake_amount =
      totalPool worldLive.game.stake_amount ∧
    Event.GameEnded gid1 12 (winnerPayout 100) (houseFee 100) =
      Event.GameEnded worldLive.game.game_id (worldLive.game.players.getD 2 0)
        (winnerPayout worldLive.game.stake_amount)
        (houseFee worldLive.game.stake_amount) :=
  claim_C1.1 worldLive reachLive 2 ⟨20, 0⟩ ⟨30, 0⟩ worldDone
    (Event.GameEnded gid1 12 (winnerPayout 100) (houseFee 100)) (by rfl)

/-- C2: in every reachable game whose status is `Waiting` or `Live`, the
vault balance is exactly `stake_amount * player_count`; `create` starts the
vault at 0 with `player_count = 0`, every successful `join` adds exactly
`stake_amount` to the vault and increments `player_count` by one, and
`start` moves no funds. -/
theorem claim_C2 :
    (∀ (w : World), Reach (some w) →
      (w.game.status = GameStatus.Waiting ∨ w.game.status = GameStatus.Live) →
      w.vault = w.game.stake_amount * w.game.player_count) ∧
    (∀ (c : Pubkey) (gid : List Nat) (st : Nat) (now : Int) (b : Nat)
      (w : World) (ev : Event), createGame c gid st now b = Except.ok (w, ev) →
      w.vault = 0 ∧ w.game.player_count = 0) ∧
    (∀ (p : Pubkey) (a : AcctInfo) (w w' : World) (ev : Event),
      joinGame p a w = Except.ok (w', ev) →
      w'.vault = w.vault + w.game.stake_amount ∧
      w'.game.player_count = w.game.player_count + 1) ∧
    (∀ (slot : Nat) (now : Int) (w w' : World) (ev : Event),
      startGame slot now w = Except.ok (w', ev) → w'.vault = w.vault) := by
  refine ⟨fun w hr => (reachInv hr).balance, ?_, ?_, ?_⟩
  · intro c gid st now b w ev h
    obtain ⟨-, -, -, hw, -⟩ := createGame_ok h
    subst hw
    exact ⟨rfl, rfl⟩
  · intro p a w w' ev h
    obtain ⟨-, -, -, -, -, -, hw, -⟩ := joinGame_ok h
    subst hw
    exact ⟨rfl, rfl⟩
  · intro slot now w w' ev h
    obtain ⟨-, -, hw, -⟩ := startGame_ok h
    subst hw
    rfl

/-- Witness for C2: the reachable `Live` world of trace A holds
`100 * 5 = 500` in its vault. -/
theorem claim_C2_witness :
    worldLive.vault = worldLive.game.stake_amount * worldLive.game.player_count :=
  claim_C2.1 worldLive reachLive (Or.inr (by rfl))

/-- C3: every instruction is all-or-nothing — whenever it returns an
error, the committed chain state (game record and vault) is exactly the
state before the call; concretely, when `end`'s second transfer (the house
fee) is the one that fails, nothing of the winner transfer or of the
`winner`/`status` writes is observable, although the same call with a
receivable house account succeeds. -/
theorem claim_C3 :
    (∀ (o : Op) (s : Option World) (e : Err),
      applyOp o s = Except.error e → runC o s = s) ∧
    applyOp (Op.endG 2 ⟨20, 0⟩ ⟨30, U64MOD - 25⟩) (some worldLive) =
      Except.error (Err.token TokenError.Overflow) ∧
    runC (Op.endG 2 ⟨20, 0⟩ ⟨30, U64MOD - 25⟩) (some worldLive) = some worldLive ∧
    isSuccess (endGame 2 ⟨20, 0⟩ ⟨30, 0⟩ worldLive) = true := by
  exact ⟨fun o s e h => runC_error h, by rfl, by rfl, by rfl⟩

/-- Witness for C3: a failing `end` (winner index 9) on the live trace-A
world commits nothing. -/
theorem claim_C3_witness :
    runC (Op.endG 9 ⟨0, 0⟩ ⟨0, 0⟩) (some worldLive) = some worldLive :=
  claim_C3.1 (Op.endG 9 ⟨0, 0⟩ ⟨0, 0⟩) (some worldLive)
    (Err.escrow EscrowError.InvalidWinner) (by rfl)

/-- C4 counterexample: the claim says `end` with `winner_index ≥ 5`
*always* fails with `InvalidWinner`, but on a `Waiting` game (here the
freshly created trace-A world) `end` with index 7 fails with `GameNotLive`
instead — the status check runs first. -/
theorem claim_C4_counterexample :
    endGame 7 ⟨0, 0⟩ ⟨0, 0⟩ worldA0 = Except.error (Err.escrow EscrowError.GameNotLive) ∧
    Err.escrow EscrowError.GameNotLive ≠ Err.escrow EscrowError.InvalidWinner := by
  exact ⟨by rfl, by decide⟩

/-- C4 (amended): `end` succeeds exactly when `status == Live`,
`winner_index < 5`, `players[winner_index]` is non-default, and the two
payout transfers can be received; on success it sets
`winner = players[winner_index]`, sets `status = Finished`, and pays
`winner_payout` and `house_fee` out of the vault.  `end` with
`winner_index ≥ 5` fails with `InvalidWinner` when the game is `Live`
(when it is not, the status check fires first), and `end` when
`status != Live` always fails with `GameNotLive`. -/
theorem claim_C4 :
    (∀ (wi : Nat) (wa ha : AcctInfo) (w w' : World) (ev : Event),
      endGame wi wa ha w = Except.ok (w', ev) →
      w.game.status = GameStatus.Live ∧ wi < 5 ∧
      w.game.players.getD wi 0 ≠ pubkeyDefault ∧
      w'.game.winner = some (w.game.players.getD wi 0) ∧
      w'.game.status = GameStatus.Finished ∧
      w'.vault = w.vault - winnerPayout w.game.stake_amount
                 - houseFee w.game.stake_amount ∧
      ev = Event.GameEnded w.game.game_id (w.game.players.getD wi 0)
             (winnerPayout w.game.stake_amount) (houseFee w.game.stake_amount)) ∧
    (∀ (wi : Nat) (wa ha : AcctInfo) (w : World), Reach (some w) →
      w.game.status = GameStatus.Live → wi < 5 →
      w.game.players.getD wi 0 ≠ pubkeyDefault →
      wa.amount + winnerPayout w.game.stake_amount < U64MOD →
      ha.amount + houseFee w.game.stake_amount < U64MOD →
      isSuccess (endGame wi wa ha w) = true) ∧
    (∀ (wi : Nat) (wa ha : AcctInfo) (w : World),
      w.game.status = GameStatus.Live → 5 ≤ wi →
      endGame wi wa ha w = Except.error (Err.escrow EscrowError.InvalidWinner)) ∧
    (∀ (wi : Nat) (wa ha : AcctInfo) (w : World),
      w.game.status ≠ GameStatus.Live →
      endGame wi wa ha w = Except.error (Err.escrow EscrowError.GameNotLive)) := by
  refine ⟨?_, ?_, ?_, ?_⟩
  · intro wi wa ha w w' ev h
    obtain ⟨h1, h2, h3, -, -, -, -, hw, hev⟩ := endGame_ok h
    subst hw
    exact ⟨h1, h2, h3, rfl, rfl, rfl, hev⟩
  · intro wi wa ha w hr h1 h2 h3 hwa hha
    obtain ⟨hv, hlt⟩ := liveVault hr h1
    have htp := totalPool_eq_of_lt hlt
    have hpay_le : winnerPayout w.game.stake_amount ≤ w.vault := by
      rw [hv, ← htp]
      exact Nat.sub_le _ _
    have hrest : houseFee w.game.stake_amount ≤
        w.vault - winnerPayout w.game.stake_amount := by
      rw [hv, ← htp, winnerPayout, Nat.sub_sub_self (houseFee_le _)]
    rw [endGame_run h1 h2 h3 hpay_le hwa hrest hha]
    rfl
  · intro wi wa ha w h1 h2
    exact endGame_err_badIndex h1 (by omega)
  · intro wi wa ha w h
    exact endGame_err_notLive h

/-- Witness for C4 on the reachable live trace-A world: `end` with winner
index 2 and receivable destination accounts succeeds. -/
theorem claim_C4_witness :
    isSuccess (endGame 2 ⟨20, 0⟩ ⟨30, 0⟩ worldLive) = true :=
  claim_C4.2.1 2 ⟨20, 0⟩ ⟨30, 0⟩ worldLive reachLive (by rfl) (by decide)
    (by decide) (by decide) (by decide)

/-- C5 counterexample: the claim says a `create` call with
`stake_amount == 0` is rejected, but `create_game` has no such check —
with stake 0 it succeeds and allocates a `Waiting` game. -/
theorem claim_C5_counterexample :
    createGame 1 gid0 0 0 255 = Except.ok
      ({ game :=
          { game_id := gid0, creator := 1, stake_amount := 0, player_count := 0,
            players := List.replicate 5 pubkeyDefault, status := GameStatus.Waiting,
            seed := List.replicate 32 0, winner := none, created_at := 0,
            started_at := none, bump := 255 },
         vault := 0 },
       Event.GameCreated gid0 1 0) := by
  rfl

/-- C5 (amended): `create` imposes no positivity precondition on
`stake_amount` — a call with `stake_amount == 0` succeeds; every
successful `create` yields a record with `status = Waiting`,
`player_count = 0`, and an empty vault. -/
theorem claim_C5 :
    (∀ (c : Pubkey) (gid : List Nat) (now : Int) (b : Nat),
      gid.length = 8 → (∀ x ∈ gid, x < 256) →
      isSuccess (createGame c gid 0 now b) = true) ∧
    (∀ (c : Pubkey) (gid : List Nat) (st : Nat) (now : Int) (b : Nat)
      (w : World) (ev : Event), createGame c gid st now b = Except.ok (w, ev) →
      w.game.status = GameStatus.Waiting ∧ w.game.player_count = 0 ∧
      w.vault = 0 ∧ w.game.stake_amount = st) := by
  constructor
  · intro c gid now b hl hb
    unfold createGame
    rw [if_pos ⟨hl, hb, by decide⟩]
    rfl
  · intro c gid st now b w ev h
    obtain ⟨-, -, -, hw, -⟩ := createGame_ok h
    subst hw
    exact ⟨rfl, rfl, rfl, rfl⟩

/-- Witness for C5: creating with stake 0 and an all-zero id succeeds. -/
theorem claim_C5_witness :
    isSuccess (createGame 1 gid0 0 0 255) = true :=
  claim_C5.1 1 gid0 0 255 (by rfl) (by decide)

/-- C6 counterexample: the claim says a joined identity *always* fails
with `AlreadyJoined` regardless of fullness, but on the full `Waiting`
trace-A game, player 10 — who joined first — gets `GameFull`: the capacity
check runs before the duplicate scan. -/
theorem claim_C6_counterexample :
    joinedBefore 10 worldA5.game = true ∧
    joinGame 10 ⟨10, 100⟩ worldA5 = Except.error (Err.escrow EscrowError.GameFull) ∧
    Err.escrow EscrowError.GameFull ≠ Err.escrow EscrowError.AlreadyJoined := by
  exact ⟨by rfl, by rfl, by decide⟩

/-- C6 (amended): `join` succeeds exactly when `status == Waiting`,
`player_count < 5`, the caller is not among the populated players, and the
stake transfer goes through (the caller owns a source account with at
least `stake_amount`, and the vault does not overflow); on success it
moves `stake_amount` into the vault, appends the caller at index
`player_count`, and increments `player_count`.  An already-joined caller
fails with `AlreadyJoined` while the game is not yet full; when the game
is full the error is `GameFull` instead. -/
theorem claim_C6 :
    (∀ (p : Pubkey) (a : AcctInfo) (w w' : World) (ev : Event),
      joinGame p a w = Except.ok (w', ev) →
      w.game.status = GameStatus.Waiting ∧ w.game.player_count < 5 ∧
      joinedBefore p w.game = false ∧
      w'.vault = w.vault + w.game.stake_amount ∧
      w'.game.players = w.game.players.set w.game.player_count p ∧
      w'.game.player_count = w.game.player_count + 1 ∧
      ev = Event.PlayerJoined w.game.game_id p (w.game.player_count + 1)) ∧
    (∀ (p : Pubkey) (a : AcctInfo) (w : World),
      w.game.status = GameStatus.Waiting → w.game.player_count < 5 →
      joinedBefore p w.game = false → w.game.stake_amount ≤ a.amount →
      a.owner = p → w.vault + w.game.stake_amount < U64MOD →
      isSuccess (joinGame p a w) = true) ∧
    (∀ (p : Pubkey) (a : AcctInfo) (w : World),
      w.game.status = GameStatus.Waiting → w.game.player_count < 5 →
      joinedBefore p w.game = true →
      joinGame p a w = Except.error (Err.escrow EscrowError.AlreadyJoined)) ∧
    (∀ (p : Pubkey) (a : AcctInfo) (w : World),
      w.game.status = GameStatus.Waiting → ¬ w.game.player_count < 5 →
      joinGame p a w = Except.error (Err.escrow EscrowError.GameFull)) := by
  refine ⟨?_, ?_, ?_, ?_⟩
  · intro p a w w' ev h
    obtain ⟨h1, h2, h3, -, -, -, hw, hev⟩ := joinGame_ok h
    subst hw
    exact ⟨h1, h2, h3, rfl, rfl, rfl, hev⟩
  · intro p a w h1 h2 h3 h4 h5 h6
    rw [joinGame_run h1 h2 h3 h4 h5 h6]
    rfl
  · intro p a w h1 h2 h3
    exact joinGame_err_dup h1 h2 h3
  · intro p a w h1 h2
    exact joinGame_err_full h1 h2

/-- Witness for C6: player 10 joining again while the trace-A game has one
player and four free slots fails with `AlreadyJoined`. -/
theorem claim_C6_witness :
    joinGame 10 ⟨10, 100⟩ worldA1 = Except.error (Err.escrow EscrowError.AlreadyJoined) :=
  claim_C6.2.2.1 10 ⟨10, 100⟩ worldA1 (by rfl) (by decide) (by rfl)

/-- C7 counterexample: the claim says the seed is nonzero immediately
after `start`, but starting the all-zero-id trace-Z game at slot 0, time 0
succeeds and commits the all-zero seed. -/
theorem claim_C7_counterexample :
    startGame 0 0 worldZ5 =
      Except.ok (worldZLive, Event.GameStarted gid0 (mkSeed gid0 0 0) 0) ∧
    worldZLive.game.seed = List.replicate 32 0 ∧
    worldZLive.game.status = GameStatus.Live := by
  exact ⟨by rfl, by rfl, by rfl⟩

/-- C7 (amended): `start` succeeds exactly when `player_count == 5` and
the prior status is `Waiting`; on success it sets `status = Live` and
`started_at`, and derives the seed deterministically from
`(game_id, slot, timestamp)`.  The seed is nonzero immediately after
`start` unless the `game_id` bytes and the little-endian encodings of the
slot and the timestamp are all zero.  Re-invoking `start` after it
succeeded fails with `GameNotWaiting` and commits nothing, so the seed is
not altered. -/
theorem claim_C7 :
    (∀ (slot : Nat) (now : Int) (w : World),
      isSuccess (startGame slot now w) = true ↔
      (w.game.status = GameStatus.Waiting ∧ w.game.player_count = 5)) ∧
    (∀ (slot : Nat) (now : Int) (w w' : World) (ev : Event),
      startGame slot now w = Except.ok (w', ev) →
      w'.game.status = GameStatus.Live ∧ w'.game.started_at = some now ∧
      w'.game.seed = mkSeed w.game.game_id slot now) ∧
    (∀ (slot : Nat) (now : Int) (w w' : World) (ev : Event),
      w.game.game_id.length = 8 →
      startGame slot now w = Except.ok (w', ev) →
      ¬(w.game.game_id = List.replicate 8 0 ∧
        u64ToLeBytes slot = List.replicate 8 0 ∧
        i64ToLeBytes now = List.replicate 8 0) →
      w'.game.seed ≠ List.replicate 32 0) ∧
    (∀ (slot : Nat) (now : Int) (w w' : World) (ev : Event),
      startGame slot now w = Except.ok (w', ev) →
      ∀ (slot2 : Nat) (now2 : Int),
        startGame slot2 now2 w' =
          Except.error (Err.escrow EscrowError.GameNotWaiting) ∧
        runC (Op.start slot2 now2) (some w') = some w') := by
  refine ⟨?_, ?_, ?_, ?_⟩
  · intro slot now w
    constructor
    · intro h
      cases hs : startGame slot now w with
      | ok r =>
        obtain ⟨w', ev⟩ := r
        obtain ⟨h1, h2, -, -⟩ := startGame_ok hs
        exact ⟨h1, h2⟩
      | error e =>
        rw [hs] at h
        exact absurd h (by simp [isSuccess])
    · rintro ⟨h1, h2⟩
      rw [startGame_run h1 h2]
      rfl
  · intro slot now w w' ev h
    obtain ⟨-, -, hw, -⟩ := startGame_ok h
    subst hw
    exact ⟨rfl, rfl, rfl⟩
  · intro slot now w w' ev hlen h hne hzero
    obtain ⟨-, -, hw, -⟩ := startGame_ok h
    subst hw
    exact hne (seed_zero_split hlen (u64ToLeBytes_length slot)
      (i64ToLeBytes_length now) hzero)
  · intro slot now w w' ev h slot2 now2
    obtain ⟨-, -, hw, -⟩ := startGame_ok h
    have hs' : w'.game.status = GameStatus.Live := by rw [hw]
    have hne : w'.game.status ≠ GameStatus.Waiting := by simp [hs']
    have herr : applyOp (Op.start slot2 now2) (some w') =
        Except.error (Err.escrow EscrowError.GameNotWaiting) :=
      startGame_err_notWaiting hne
    exact ⟨herr, runC_error herr⟩

/-- Witness for C7: after the trace-A `start`, a second `start` fails with
`GameNotWaiting` and commits nothing. -/
theorem claim_C7_witness :
    startGame 8 2000 worldLive =
      Except.error (Err.escrow EscrowError.GameNotWaiting) ∧
    runC (Op.start 8 2000) (some worldLive) = some worldLive :=
  claim_C7.2.2.2 7 1000 worldA5 worldLive
    (Event.GameStarted gid1 (mkSeed gid1 7 1000) 1000) (by rfl) 8 2000

/-- C8 counterexample: the claim's biconditional (and its "a second refund
transfers `stake_amount` again") fails once the vault is drained — on the
trace-B world after both stakes have been refunded, all three stated
preconditions still hold for index 0, yet the refund fails with
`InsufficientFunds`. -/
theorem claim_C8_counterexample :
    worldB5.game.status = GameStatus.Cancelled ∧
    0 < worldB5.game.player_count ∧
    (⟨10, 200⟩ : AcctInfo).owner = worldB5.game.players.getD 0 0 ∧
    refundPlayer 0 ⟨10, 200⟩ worldB5 =
      Except.error (Err.token TokenError.InsufficientFunds) := by
  exact ⟨by rfl, by decide, by rfl, by rfl⟩

/-- C8 (amended): `refund` succeeds exactly when `status == Cancelled`,
`player_index < player_count`, the destination account's owner is
`players[player_index]`, and the transfer goes through (the vault still
holds `stake_amount` and the destination can receive it); each successful
refund moves exactly `stake_amount` out of the vault and leaves the game
record unchanged; an index not among the joined players fails with
`InvalidPlayer`; per-player idempotency is not guaranteed — a second
refund for the same `player_index` passes the record checks again and,
while other players' stakes remain in the vault, transfers `stake_amount`
again (concretely: trace B refunds index 0 twice). -/
theorem claim_C8 :
    (∀ (pi : Nat) (a : AcctInfo) (w w' : World) (ev : Event),
      refundPlayer pi a w = Except.ok (w', ev) →
      w.game.status = GameStatus.Cancelled ∧ pi < w.game.player_count ∧
      a.owner = w.game.players.getD pi 0 ∧
      w'.game = w.game ∧ w'.vault = w.vault - w.game.stake_amount ∧
      ev = Event.PlayerRefunded w.game.game_id (w.game.players.getD pi 0)
             w.game.stake_amount) ∧
    (∀ (pi : Nat) (a : AcctInfo) (w : World),
      w.game.status = GameStatus.Cancelled → pi < w.game.player_count →
      a.owner = w.game.players.getD pi 0 →
      w.game.stake_amount ≤ w.vault →
      a.amount + w.game.stake_amount < U64MOD →
      isSuccess (refundPlayer pi a w) = true) ∧
    (∀ (pi : Nat) (a : AcctInfo) (w : World),
      w.game.status = GameStatus.Cancelled → ¬ pi < w.game.player_count →
      refundPlayer pi a w = Except.error (Err.escrow EscrowError.InvalidPlayer)) ∧
    (refundPlayer 0 ⟨10, 0⟩ worldB3 =
      Except.ok (worldB4, Event.PlayerRefunded gidB 10 100) ∧
     refundPlayer 0 ⟨10, 100⟩ worldB4 =
      Except.ok (worldB5, Event.PlayerRefunded gidB 10 100)) := by
  refine ⟨?_, ?_, ?_, by rfl, by rfl⟩
  · intro pi a w w' ev h
    obtain ⟨h1, h2, h3, -, -, hw, hev⟩ := refundPlayer_ok h
    subst hw
    exact ⟨h1, h2, h3, rfl, rfl, hev⟩
  · intro pi a w h1 h2 h3 h4 h5
    rw [refundPlayer_run h1 h2 h3 h4 h5]
    rfl
  · intro pi a w h1 h2
    exact refundPlayer_err_badIndex h1 h2

/-- Witness for C8: the first refund of player 0 on the cancelled trace-B
game succeeds. -/
theorem claim_C8_witness :
    isSuccess (refundPlayer 0 ⟨10, 0⟩ worldB3) = true :=
  claim_C8.2.1 0 ⟨10, 0⟩ worldB3 (by rfl) (by decide) (by rfl) (by decide)
    (by decide)

/-- C9: the status moves only along `Waiting → Live → Finished` and
`Waiting → Cancelled` (or stays put); `cancel` succeeds only when the
caller is the creator and the game is `Waiting`; once `Cancelled` the game
stays `Cancelled` under any instruction sequence and every `join`, `start`
or `end` on it fails; `Finished` is likewise terminal. -/
theorem claim_C9 :
    (∀ (o : Op) (w w' : World) (ev : Event),
      applyOp o (some w) = Except.ok (w', ev) →
      statusStep w.game.status w'.game.status) ∧
    (∀ (auth : Pubkey) (w w' : World) (ev : Event),
      cancelGame auth w = Except.ok (w', ev) →
      auth = w.game.creator ∧ w.game.status = GameStatus.Waiting ∧
      w'.game.status = GameStatus.Cancelled) ∧
    (∀ (w : World), w.game.status = GameStatus.Cancelled →
      (∀ (p : Pubkey) (a : AcctInfo),
        joinGame p a w = Except.error (Err.escrow EscrowError.GameNotWaiting)) ∧
      (∀ (slot : Nat) (now : Int),
        startGame slot now w = Except.error (Err.escrow EscrowError.GameNotWaiting)) ∧
      (∀ (wi : Nat) (wa ha : AcctInfo),
        endGame wi wa ha w = Except.error (Err.escrow EscrowError.GameNotLive))) ∧
    (∀ (w : World), w.game.status = GameStatus.Cancelled →
      ∀ (os : List Op), (runAll os (some w)).map (fun x => x.game.status) =
        some GameStatus.Cancelled) ∧
    (∀ (w : World), w.game.status = GameStatus.Finished →
      ∀ (os : List Op), (runAll os (some w)).map (fun x => x.game.status) =
        some GameStatus.Finished) := by
  refine ⟨fun o w w' ev h => step_statusStep h, ?_, ?_,
    fun w hc => cancelled_stays hc, fun w hc => finished_stays hc⟩
  · intro auth w w' ev h
    obtain ⟨h1, h2, hw, -⟩ := cancelGame_ok h
    subst hw
    exact ⟨h2, h1, rfl⟩
  · intro w hc
    exact ⟨fun p a => joinGame_err_notWaiting (by simp [hc]),
      fun slot now => startGame_err_notWaiting (by simp [hc]),
      fun wi wa ha => endGame_err_notLive (by simp [hc])⟩

/-- Witness for C9: the trace-B `cancel` was performed by the creator on a
`Waiting` game and left it `Cancelled`. -/
theorem claim_C9_witness :
    (1 : Pubkey) = worldB2.game.creator ∧
    worldB2.game.status = GameStatus.Waiting ∧
    worldB3.game.status = GameStatus.Cancelled :=
  claim_C9.2.1 1 worldB2 worldB3 (Event.GameCancelled gidB) (by rfl)

/-- C10: after every successful `start` on a reachable game the committed
seed is exactly `game_id ++ slot.to_le_bytes ++ timestamp.to_le_bytes ++
[0; 8]`, so its last 8 bytes (indices 24..32) are zero; in particular the
all-zero-id game started at slot 0, time 0 commits the all-zero seed even
though it is `Live`. -/
theorem claim_C10 :
    (∀ (slot : Nat) (now : Int) (w w' : World) (ev : Event), Reach (some w) →
      startGame slot now w = Except.ok (w', ev) →
      w'.game.seed = w.game.game_id ++ u64ToLeBytes slot ++ i64ToLeBytes now ++
        List.replicate 8 0 ∧
      w'.game.seed.drop 24 = List.replicate 8 0) ∧
    startGame 0 0 worldZ5 =
      Except.ok (worldZLive, Event.GameStarted gid0 (mkSeed gid0 0 0) 0) ∧
    worldZLive.game.seed = List.replicate 32 0 ∧
    worldZLive.game.status = GameStatus.Live := by
  refine ⟨?_, by rfl, by rfl, by rfl⟩
  intro slot now w w' ev hr h
  have hlen := (reachInv hr).gid_len
  obtain ⟨-, -, hw, -⟩ := startGame_ok h
  subst hw
  refine ⟨rfl, ?_⟩
  show (mkSeed w.game.game_id slot now).drop 24 = List.replicate 8 0
  have h24 : (w.game.game_id ++ u64ToLeBytes slot ++ i64ToLeBytes now).length = 24 := by
    simp [hlen, u64ToLeBytes_length, i64ToLeBytes_length]
  exact List.drop_left' h24

/-- Witness for C10: the trace-A seed is the concatenation of `gid1`, the
LE bytes of slot 7 and time 1000, and eight zero bytes. -/
theorem claim_C10_witness :
    worldLive.game.seed = gid1 ++ u64ToLeBytes 7 ++ i64ToLeBytes 1000 ++
      List.replicate 8 0 ∧
    worldLive.game.seed.drop 24 = List.replicate 8 0 :=
  claim_C10.1 7 1000 worldA5 worldLive
    (Event.GameStarted gid1 (mkSeed gid1 7 1000) 1000) reachA5 (by rfl)

end Happybomber
